import Mathlib

/-!
# SDL_VTXT: the deferred command queue, the colour buffer and the render pipeline

A shallow embedding of `SDL_VTXT.h`.

* C `int` values that are coordinates or sizes in points are `Int`; element
  counts (`color_array_count`, `vertex_count`, `indices_array_count`, atlas
  width and height, `pitch`) are `Nat`, bytes are `Nat`.
* A pointer to a heap block is an `Option`: `none` is `NULL`, `some l` is a
  block holding the elements of `l`.
* The singly linked list headed by `SDL_VTXT.commands` is a `List VTXTCommand`:
  `[]` is the `NULL` head, and the `next` field of a node is the tail.
* A function that can dereference `NULL` or step outside a block returns an
  `Option`, where `none` is undefined behaviour of the C program.
* The external libraries (the vertext shaper, the SDL allocator, renderer and
  file layer) are parameters: their functions are fields of a record, and the
  results the source distinguishes (`SDL_realloc` or `SDL_CreateTexture`
  returning `NULL`, the value returned by `SDL_RenderGeometryRaw`) are data of
  an environment record.
* The result of `SDL_malloc(sizeof(VTXTCommand))` in the three recording
  functions is an argument: `none` is `NULL`, through which the stores that
  follow are undefined, and `some blk` is a block whose bytes read as `blk`
  before they are written.  In `SDL_VTXT_Init` both `SDL_malloc` calls are taken
  to return a block; the second one holds `InitEnv.uninit`.
-/

namespace SDLVTXT

/-! ## Data model -/

/-- The operations that can be recorded (`enum VTXTOperation`). -/
inductive VTXTOperation where
  | kVTXTOperation_AppendLine
  | kVTXTOperation_NewLine
  | kVTXTOperation_AppendGlyph
  deriving DecidableEq, Repr

/-- One node of the command list (`struct VTXTCommand`), without its `next` link. -/
structure VTXTCommand where
  op : VTXTOperation
  line : Option String
  cursor_x : Int
  glyph : Char
  deriving DecidableEq, Repr

/-- An RGBA colour of four bytes (`SDL_Color`). -/
structure SDL_Color where
  r : Nat
  g : Nat
  b : Nat
  a : Nat
  deriving DecidableEq, Repr

/-- The single-channel glyph atlas of a vertext font (`font_handle.font_atlas`). -/
structure vtxt_bitmap where
  width : Nat
  height : Nat
  pixels : List Nat
  deriving DecidableEq, Repr

/-- The part of `vtxt_font` this library reads: the atlas. -/
structure vtxt_font where
  font_atlas : vtxt_bitmap
  deriving DecidableEq, Repr

/-- A streaming texture as the library sees it: its format and size as given to
`SDL_CreateTexture`, the bytes uploaded by `SDL_UnlockTexture`, and whether
`SDL_BLENDMODE_BLEND` has been set. -/
structure SDL_Texture where
  format : Nat
  w : Nat
  h : Nat
  data : List Nat
  blend : Bool
  deriving DecidableEq, Repr

/-- The text object (`struct SDL_VTXT`). -/
structure SDL_VTXT where
  text_size : Int
  cursor_x : Int
  cursor_y : Int
  text_color : SDL_Color
  font_handle : vtxt_font
  pixel_format : Nat
  font_tex : Option SDL_Texture
  color_buffer : Option (List SDL_Color)
  color_array_count : Nat
  commands : List VTXTCommand
  deriving DecidableEq, Repr

/-! ## Command queue -/

/-- The walk of `SDL_VTXT_AddCommand`: follow `next` links until the `NULL`
link is found and store the new node, whose own `next` is `NULL`, there. -/
def SDL_VTXT_AddCommand_walk : List VTXTCommand → VTXTCommand → List VTXTCommand
  | [], cmd => [cmd]
  | c :: n, cmd => c :: SDL_VTXT_AddCommand_walk n cmd

/-- Embedding of `SDL_VTXT_AddCommand`: the updated object and the returned value. -/
def SDL_VTXT_AddCommand (vfont : SDL_VTXT) (cmd : VTXTCommand) : SDL_VTXT × Int :=
  ({ vfont with commands := SDL_VTXT_AddCommand_walk vfont.commands cmd }, 0)

/-- Embedding of `SDL_VTXT_AppendLine`.  The argument `cmd` is what
`SDL_malloc(sizeof(VTXTCommand))` returned; the source does not test it, and the
stores to `cmd->op`, `cmd->line`, `cmd->cursor_x` and `cmd->glyph` through `NULL`
are undefined (`none`). -/
def SDL_VTXT_AppendLine (vfont : SDL_VTXT) (cmd : Option VTXTCommand)
    (line : Option String) : Option (SDL_VTXT × Int) :=
  match cmd with
  | none => none
  | some blk =>
    some (SDL_VTXT_AddCommand vfont
      { blk with
        op := VTXTOperation.kVTXTOperation_AppendLine, line := line, cursor_x := 0,
        glyph := Char.ofNat 0 })

/-- Embedding of `SDL_VTXT_NewLine`; `cmd` is what `SDL_malloc` returned, and
the stores through `NULL` are undefined (`none`). -/
def SDL_VTXT_NewLine (vfont : SDL_VTXT) (cmd : Option VTXTCommand) (new_x : Int) :
    Option (SDL_VTXT × Int) :=
  match cmd with
  | none => none
  | some blk =>
    some (SDL_VTXT_AddCommand vfont
      { blk with
        op := VTXTOperation.kVTXTOperation_NewLine, line := none, cursor_x := new_x,
        glyph := Char.ofNat 0 })

/-- Embedding of `SDL_VTXT_AppendGlyph`; `cmd` is what `SDL_malloc` returned, and
the stores through `NULL` are undefined (`none`). -/
def SDL_VTXT_AppendGlyph (vfont : SDL_VTXT) (cmd : Option VTXTCommand) (glyph : Char) :
    Option (SDL_VTXT × Int) :=
  match cmd with
  | none => none
  | some blk =>
    some (SDL_VTXT_AddCommand vfont
      { blk with
        op := VTXTOperation.kVTXTOperation_AppendGlyph, line := none, cursor_x := 0,
        glyph := glyph })

/-- The loop of `SDL_VTXT_Clear`: free every node, following `next`, until the
`NULL` link; the result is the number of nodes freed. -/
def SDL_VTXT_Clear_free : List VTXTCommand → Nat
  | [] => 0
  | _ :: n => SDL_VTXT_Clear_free n + 1

/-- Embedding of `SDL_VTXT_Clear`: the nodes are freed, then the head is set to
`NULL`. -/
def SDL_VTXT_Clear (vfont : SDL_VTXT) : SDL_VTXT × Int :=
  let _freed : Nat := SDL_VTXT_Clear_free vfont.commands
  ({ vfont with commands := [] }, 0)

/-- Embedding of `SDL_VTXT_SetColor`. -/
def SDL_VTXT_SetColor (vfont : SDL_VTXT) (color : SDL_Color) : SDL_VTXT × Int :=
  ({ vfont with text_color := color }, 0)

/-- Embedding of `SDL_VTXT_SetCursor`. -/
def SDL_VTXT_SetCursor (vfont : SDL_VTXT) (x y : Int) : SDL_VTXT × Int :=
  ({ vfont with cursor_x := x, cursor_y := y }, 0)

/-- A call of one of the three recording functions, with its argument. -/
inductive QueueCall where
  | AppendLine (line : Option String)
  | NewLine (new_x : Int)
  | AppendGlyph (glyph : Char)
  deriving DecidableEq, Repr

/-- Run one recording call on the object; `cmd` is what its `SDL_malloc`
returned. -/
def QueueCall.run (vfont : SDL_VTXT) (cmd : Option VTXTCommand) :
    QueueCall → Option (SDL_VTXT × Int)
  | QueueCall.AppendLine line => SDL_VTXT_AppendLine vfont cmd line
  | QueueCall.NewLine new_x => SDL_VTXT_NewLine vfont cmd new_x
  | QueueCall.AppendGlyph glyph => SDL_VTXT_AppendGlyph vfont cmd glyph

/-- Run a sequence of recording calls in order, each paired with what its
`SDL_malloc` returned; the result is the final object and the list of the values
the calls returned, or `none` as soon as one call is undefined. -/
def runCalls : SDL_VTXT → List (QueueCall × Option VTXTCommand) → Option (SDL_VTXT × List Int)
  | vfont, [] => some (vfont, [])
  | vfont, step :: steps =>
    match QueueCall.run vfont step.2 step.1 with
    | none => none
    | some r =>
      match runCalls r.1 steps with
      | none => none
      | some rest => some (rest.1, r.2 :: rest.2)

/-- A command carries the operation tag and the argument of a call. -/
def carries : QueueCall → VTXTCommand → Prop
  | QueueCall.AppendLine line, cmd =>
    cmd.op = VTXTOperation.kVTXTOperation_AppendLine ∧ cmd.line = line
  | QueueCall.NewLine new_x, cmd =>
    cmd.op = VTXTOperation.kVTXTOperation_NewLine ∧ cmd.cursor_x = new_x
  | QueueCall.AppendGlyph glyph, cmd =>
    cmd.op = VTXTOperation.kVTXTOperation_AppendGlyph ∧ cmd.glyph = glyph

/-- The node a recording call allocates and fills in. -/
def QueueCall.node : QueueCall → VTXTCommand
  | QueueCall.AppendLine line =>
    { op := VTXTOperation.kVTXTOperation_AppendLine, line := line, cursor_x := 0,
      glyph := Char.ofNat 0 }
  | QueueCall.NewLine new_x =>
    { op := VTXTOperation.kVTXTOperation_NewLine, line := none, cursor_x := new_x,
      glyph := Char.ofNat 0 }
  | QueueCall.AppendGlyph glyph =>
    { op := VTXTOperation.kVTXTOperation_AppendGlyph, line := none, cursor_x := 0,
      glyph := glyph }

/-! ## Colour buffer -/

/-- What the allocator does during one render call: whether `SDL_realloc`
returns a block (`true`) or `NULL` (`false`), and the colour found in every
element it did not copy from the old block.  `NULL` is what `SDL_realloc`
returns when memory is exhausted, and what the C library may return for a
request of 0 bytes. -/
structure AllocEnv where
  realloc_ok : Bool
  junk : SDL_Color
  deriving DecidableEq, Repr

/-- The elements of a block; `NULL` has none. -/
def elems (ptr : Option (List SDL_Color)) : List SDL_Color :=
  match ptr with
  | none => []
  | some l => l

/-- The result of `SDL_realloc(ptr, sizeof(SDL_Color) * n)`: `NULL`, or a block of
`n` elements that starts with the old elements. -/
def SDL_realloc (env : AllocEnv) (ptr : Option (List SDL_Color)) (n : Nat) :
    Option (List SDL_Color) :=
  if env.realloc_ok then
    some ((elems ptr).take n ++ List.replicate (n - (elems ptr).length) env.junk)
  else none

/-- Embedding of `SDL_VTXT_ResizeColorBuffer`: the updated object and the
returned value.  The result of `SDL_realloc` is stored in `color_buffer` before
it is tested. -/
def SDL_VTXT_ResizeColorBuffer (env : AllocEnv) (vfont : SDL_VTXT) (size : Nat) :
    SDL_VTXT × Int :=
  if vfont.color_array_count ≠ size then
    let vfont1 := { vfont with color_buffer := SDL_realloc env vfont.color_buffer size }
    match vfont1.color_buffer with
    | some _ => ({ vfont1 with color_array_count := size }, 0)
    | none => (vfont1, -1)
  else (vfont, 0)

/-- The loop of `SDL_VTXT_FillColorBuffer`, with `k` iterations left and loop
variable `ii`: each iteration stores the tint in `color_buffer[ii]`.  A store
through `NULL` or past the end of the block is undefined (`none`). -/
def SDL_VTXT_FillColorBuffer_loop (tint : SDL_Color) :
    Nat → Nat → Option (List SDL_Color) → Option (Option (List SDL_Color))
  | 0, _, buf => some buf
  | k + 1, ii, buf =>
    match buf with
    | none => none
    | some l =>
      if ii < l.length then
        SDL_VTXT_FillColorBuffer_loop tint k (ii + 1) (some (l.set ii tint))
      else none

/-- Embedding of `SDL_VTXT_FillColorBuffer`: `ii` runs from 0 to
`color_array_count`. -/
def SDL_VTXT_FillColorBuffer (vfont : SDL_VTXT) : Option (SDL_VTXT × Int) :=
  match SDL_VTXT_FillColorBuffer_loop vfont.text_color vfont.color_array_count 0
      vfont.color_buffer with
  | none => none
  | some buf => some ({ vfont with color_buffer := buf }, 0)

/-- The block in `color_buffer` holds exactly `color_array_count` elements
(`NULL` holds none). -/
def ColorBufferHolds (vfont : SDL_VTXT) : Prop :=
  (elems vfont.color_buffer).length = vfont.color_array_count

/-! ## Shaper and render pipeline -/

/-- The counts of the geometry returned by `vtxt_grab_buffer`. -/
structure vtxt_vertex_buffer where
  vertex_count : Nat
  indices_array_count : Nat
  deriving DecidableEq, Repr

/-- The vertext functions the library calls, as functions on the state `σ` of
the shaper (its cursor and its accumulator). -/
structure Shaper (σ : Type) where
  vtxt_move_cursor : Int → Int → σ → σ
  vtxt_append_line : Option String → vtxt_font → Int → σ → σ
  vtxt_new_line : Int → vtxt_font → σ → σ
  vtxt_append_glyph : Char → vtxt_font → Int → σ → σ
  vtxt_grab_buffer : σ → vtxt_vertex_buffer
  vtxt_clear_buffer : σ → σ

/-- A call the render function makes to the shaper or to the renderer, with the
arguments that come from the text object and from the harvested geometry. -/
inductive Call where
  | move_cursor (x y : Int)
  | append_line (line : Option String) (font : vtxt_font) (size : Int)
  | new_line (cursor_x : Int) (font : vtxt_font)
  | append_glyph (glyph : Char) (font : vtxt_font) (size : Int)
  | grab_buffer
  | render_geometry (texture : Option SDL_Texture) (color : Option (List SDL_Color))
      (num_vertices : Nat) (num_indices : Nat)
  | clear_buffer
  deriving DecidableEq, Repr

/-- What the outside world does during one render call: the allocator, and the
value `SDL_RenderGeometryRaw` returns (0 on success). -/
structure RenderEnv where
  alloc : AllocEnv
  draw_result : Int
  deriving DecidableEq, Repr

/-- The outcome of a render call that returns. -/
structure RenderResult (σ : Type) where
  vfont : SDL_VTXT
  shaper : σ
  calls : List Call
  ret : Int

/-- The `while (cmd != NULL)` loop of `SDL_VTXT_Render`: one shaper call per
node, chosen by the `switch` on `cmd->op`, then `cmd = cmd->next`.  The result
is the shaper state and the calls made. -/
def SDL_VTXT_Render_commands {σ : Type} (sh : Shaper σ) (vfont : SDL_VTXT) :
    List VTXTCommand → σ → σ × List Call
  | [], s => (s, [])
  | cmd :: next, s =>
    let step : σ × Call :=
      match cmd.op with
      | VTXTOperation.kVTXTOperation_AppendLine =>
        (sh.vtxt_append_line cmd.line vfont.font_handle vfont.text_size s,
          Call.append_line cmd.line vfont.font_handle vfont.text_size)
      | VTXTOperation.kVTXTOperation_NewLine =>
        (sh.vtxt_new_line cmd.cursor_x vfont.font_handle s,
          Call.new_line cmd.cursor_x vfont.font_handle)
      | VTXTOperation.kVTXTOperation_AppendGlyph =>
        (sh.vtxt_append_glyph cmd.glyph vfont.font_handle vfont.text_size s,
          Call.append_glyph cmd.glyph vfont.font_handle vfont.text_size)
    let rest := SDL_VTXT_Render_commands sh vfont next step.1
    (rest.1, step.2 :: rest.2)

/-- Embedding of `SDL_VTXT_Render`, started with the shaper in state `s`.  The
values returned by `SDL_VTXT_ResizeColorBuffer`, `SDL_VTXT_FillColorBuffer` and
`SDL_RenderGeometryRaw` are discarded, and the function ends with `return 0`.
The result is `none` when the fill loop has undefined behaviour. -/
def SDL_VTXT_Render {σ : Type} (sh : Shaper σ) (env : RenderEnv) (vfont : SDL_VTXT)
    (s : σ) : Option (RenderResult σ) :=
  let s1 := sh.vtxt_move_cursor vfont.cursor_x vfont.cursor_y s
  let replay := SDL_VTXT_Render_commands sh vfont vfont.commands s1
  let vb := sh.vtxt_grab_buffer replay.1
  let resized := SDL_VTXT_ResizeColorBuffer env.alloc vfont vb.vertex_count
  match SDL_VTXT_FillColorBuffer resized.1 with
  | none => none
  | some filled =>
    let _drawn : Int := env.draw_result
    some
      { vfont := filled.1
        shaper := sh.vtxt_clear_buffer replay.1
        calls :=
          Call.move_cursor vfont.cursor_x vfont.cursor_y :: replay.2 ++
            [Call.grab_buffer,
              Call.render_geometry filled.1.font_tex filled.1.color_buffer vb.vertex_count
                vb.indices_array_count,
              Call.clear_buffer]
        ret := 0 }

/-- The shaper state at the moment `vtxt_grab_buffer` is called: the cursor has
been moved and every queued command replayed. -/
def replayed {σ : Type} (sh : Shaper σ) (vfont : SDL_VTXT) (s : σ) : σ :=
  (SDL_VTXT_Render_commands sh vfont vfont.commands
    (sh.vtxt_move_cursor vfont.cursor_x vfont.cursor_y s)).1

/-- The geometry a render call harvests. -/
def harvested {σ : Type} (sh : Shaper σ) (vfont : SDL_VTXT) (s : σ) : vtxt_vertex_buffer :=
  sh.vtxt_grab_buffer (replayed sh vfont s)

/-- The shaper call that matches a queued command, for an object with the given
font and text size. -/
def shaperCall (vfont : SDL_VTXT) (cmd : VTXTCommand) : Call :=
  match cmd.op with
  | VTXTOperation.kVTXTOperation_AppendLine =>
    Call.append_line cmd.line vfont.font_handle vfont.text_size
  | VTXTOperation.kVTXTOperation_NewLine => Call.new_line cmd.cursor_x vfont.font_handle
  | VTXTOperation.kVTXTOperation_AppendGlyph =>
    Call.append_glyph cmd.glyph vfont.font_handle vfont.text_size

/-- The reallocation of this render call does not leave a non-empty count over a
`NULL` buffer: the harvested vertex count equals the current count (nothing is
reallocated), or `SDL_realloc` returns a block, or the current count is 0. -/
def ReallocSafe {σ : Type} (sh : Shaper σ) (env : RenderEnv) (vfont : SDL_VTXT) (s : σ) :
    Prop :=
  (harvested sh vfont s).vertex_count = vfont.color_array_count ∨
    env.alloc.realloc_ok = true ∨ vfont.color_array_count = 0

/-- The predicate `empty` picks out shaper states whose accumulator is empty:
`vtxt_clear_buffer` leads to such a state, moving the cursor from two such
states gives the same state (the shaper has no state besides its cursor and its
accumulator), and harvesting right after a cursor move from such a state gives
no vertex and no index. -/
structure IsEmptyAccumulator {σ : Type} (sh : Shaper σ) (empty : σ → Prop) : Prop where
  clear : ∀ t, empty (sh.vtxt_clear_buffer t)
  move : ∀ x y t u, empty t → empty u → sh.vtxt_move_cursor x y t = sh.vtxt_move_cursor x y u
  grab : ∀ x y t, empty t →
    sh.vtxt_grab_buffer (sh.vtxt_move_cursor x y t) =
      { vertex_count := 0, indices_array_count := 0 }

/-! ## Atlas texture -/

/-- What the renderer does while the atlas texture is built: the value of
`SDL_MasksToPixelFormatEnum(32, 0xFF000000, 0x00FF0000, 0x0000FF00, 0x000000FF)`,
whether `SDL_CreateTexture` returns a texture, whether `SDL_LockTexture`
succeeds on it, the row pitch it then reports, and the byte found in the locked
block (of `pitch * height` bytes) before it is written. -/
structure TextureEnv where
  pixel_format : Nat
  create_ok : Bool
  lock_ok : Bool
  pitch : Nat
  junk : Nat
  deriving DecidableEq, Repr

/-- The state of the two loops of `SDL_VTXT_ResetTexture`: `alpha_idx`, the
offset of `rgba` from `pixels`, and the locked block (`none` when `pixels` is
`NULL`). -/
structure TexLoop where
  alpha_idx : Nat
  rgba : Nat
  pixels : Option (List Nat)
  deriving DecidableEq, Repr

/-- The store `rgba[k] = v`: undefined through `NULL` or outside the block. -/
def TexLoop.store (st : TexLoop) (k : Nat) (v : Nat) : Option TexLoop :=
  match st.pixels with
  | none => none
  | some block =>
    if st.rgba + k < block.length then
      some { st with pixels := some (block.set (st.rgba + k) v) }
    else none

/-- The body of the inner loop of `SDL_VTXT_ResetTexture`: four stores, then
`++alpha_idx` and `rgba += 4`.  A read of `font_atlas.pixels[alpha_idx]` outside
the atlas is undefined. -/
def SDL_VTXT_ResetTexture_pixel (atlas : List Nat) (use_all_channels : Int) (st : TexLoop) :
    Option TexLoop :=
  match atlas.get? st.alpha_idx with
  | none => none
  | some v =>
    (if use_all_channels = 0 then
      ((st.store 0 v).bind (fun st1 => st1.store 1 255)).bind
        (fun st2 => (st2.store 2 255).bind (fun st3 => st3.store 3 255))
    else
      ((st.store 0 v).bind (fun st1 => st1.store 1 v)).bind
        (fun st2 => (st2.store 2 v).bind (fun st3 => st3.store 3 v))).map
      (fun st4 => { st4 with alpha_idx := st4.alpha_idx + 1, rgba := st4.rgba + 4 })

/-- The inner loop `for (col_byte = 0; col_byte < pitch; col_byte += 4)`, entered
with the given `col_byte`.  The first argument bounds the number of iterations;
`pitch` of them always suffice. -/
def SDL_VTXT_ResetTexture_row (atlas : List Nat) (use_all_channels : Int) (pitch : Nat) :
    Nat → Nat → TexLoop → Option TexLoop
  | 0, col_byte, st => if col_byte < pitch then none else some st
  | fuel + 1, col_byte, st =>
    if col_byte < pitch then
      match SDL_VTXT_ResetTexture_pixel atlas use_all_channels st with
      | none => none
      | some st1 =>
        SDL_VTXT_ResetTexture_row atlas use_all_channels pitch fuel (col_byte + 4) st1
    else some st

/-- The outer loop `for (row = 0; row < height; ++row)`, with the given number
of rows left. -/
def SDL_VTXT_ResetTexture_rows (atlas : List Nat) (use_all_channels : Int) (pitch : Nat) :
    Nat → TexLoop → Option TexLoop
  | 0, st => some st
  | rows + 1, st =>
    match SDL_VTXT_ResetTexture_row atlas use_all_channels pitch pitch 0 st with
    | none => none
    | some st1 => SDL_VTXT_ResetTexture_rows atlas use_all_channels pitch rows st1

/-- The bytes the two loops leave in a locked block of `pitch * height` bytes
for an atlas of the given height; `none` when a read or a store is undefined. -/
def SDL_VTXT_ResetTexture_bytes (atlas : vtxt_bitmap) (use_all_channels : Int) (pitch : Nat)
    (junk : Nat) : Option (List Nat) :=
  match SDL_VTXT_ResetTexture_rows atlas.pixels use_all_channels pitch atlas.height
      { alpha_idx := 0, rgba := 0,
        pixels := some (List.replicate (pitch * atlas.height) junk) } with
  | none => none
  | some st => st.pixels

/-- Embedding of `SDL_VTXT_ResetTexture`.  `pixels` and `pitch` start as `NULL`
and 0 and are set by `SDL_LockTexture` only when it succeeds, which it cannot on
a `NULL` texture; no value returned by an SDL call is tested.  The result is
`none` when a loop has undefined behaviour. -/
def SDL_VTXT_ResetTexture (env : TextureEnv) (vfont : SDL_VTXT) (use_all_channels : Int) :
    Option (SDL_VTXT × Int) :=
  let vfont1 := { vfont with pixel_format := env.pixel_format }
  let tex : Option SDL_Texture :=
    if env.create_ok then
      some { format := vfont1.pixel_format, w := vfont1.font_handle.font_atlas.width,
             h := vfont1.font_handle.font_atlas.height, data := [], blend := false }
    else none
  let locked : Bool := tex.isSome && env.lock_ok
  let pixels : Option (List Nat) :=
    if locked then
      some (List.replicate (env.pitch * vfont1.font_handle.font_atlas.height) env.junk)
    else none
  let pitch : Nat := if locked then env.pitch else 0
  match SDL_VTXT_ResetTexture_rows vfont1.font_handle.font_atlas.pixels use_all_channels
      pitch vfont1.font_handle.font_atlas.height
      { alpha_idx := 0, rgba := 0, pixels := pixels } with
  | none => none
  | some st =>
    some ({ vfont1 with
            font_tex := tex.map
              (fun t => { t with data := (st.pixels.getD []), blend := true }) }, 0)

/-- The four bytes (red, green, blue, alpha) that belong to the atlas byte `v`:
(V, 0xFF, 0xFF, 0xFF) when `use_all_channels` is 0 and (V, V, V, V) otherwise. -/
def texel (use_all_channels : Int) (v : Nat) : List Nat :=
  if use_all_channels = 0 then [v, 255, 255, 255] else [v, v, v, v]

/-- The texels of a run of atlas bytes, one after the other. -/
def texels (use_all_channels : Int) : List Nat → List Nat
  | [] => []
  | v :: vs => texel use_all_channels v ++ texels use_all_channels vs

/-! ## Construction -/

/-- An open font file: what `SDL_RWsize` reports, the bytes of the file, and the
numbers of bytes that successive `SDL_RWread` calls hand over (0 once the list
is used up). -/
structure SDL_RWops where
  size : Int
  data : List Nat
  reads : List Nat
  deriving DecidableEq, Repr

/-- What the outside world does during `SDL_VTXT_Init`: the result of
`SDL_RWFromFile` (`none` is `NULL`), the contents of the block that
`SDL_malloc(sizeof(SDL_VTXT))` returns, the font handle `vtxt_init_font` writes
for the given bytes and size together with the value it returns, and the
renderer. -/
structure InitEnv where
  file : Option SDL_RWops
  uninit : SDL_VTXT
  vtxt_init_font : List Nat → Int → vtxt_font × Int
  texture : TextureEnv

/-- The read loop of `SDL_VTXT_Init`,
`while (nb_read_total < res_size && nb_read != 0)`; the result is `nb_read_total`.
`SDL_RWread` returns at most the number of bytes asked for. -/
def SDL_VTXT_Init_read (res_size : Int) : List Nat → Int → Int
  | [], nb_read_total => nb_read_total
  | r :: rest, nb_read_total =>
    if nb_read_total < res_size then
      let nb_read : Int := min (r : Int) (res_size - nb_read_total)
      if nb_read = 0 then nb_read_total
      else SDL_VTXT_Init_read res_size rest (nb_read_total + nb_read)
    else nb_read_total

/-- Embedding of `SDL_VTXT_Init`.  The inner `none` is the `NULL` result; the
outer `none` is undefined behaviour inside `SDL_VTXT_ResetTexture`.  The fields
the source does not assign keep what the allocated block held. -/
def SDL_VTXT_Init (env : InitEnv) (text_size : Int) : Option (Option SDL_VTXT) :=
  match env.file with
  | none => some none
  | some rw =>
    let res_size := rw.size
    let nb_read_total := SDL_VTXT_Init_read res_size rw.reads 0
    if nb_read_total ≠ res_size then some none
    else
      let font_file : List Nat := rw.data.take nb_read_total.toNat ++ [0]
      let ret0 : SDL_VTXT := { env.uninit with text_size := text_size }
      let ret1 : SDL_VTXT :=
        { ret0 with font_handle := (env.vtxt_init_font font_file text_size).1 }
      let ret2 : SDL_VTXT :=
        { ret1 with
          text_color := { r := 255, g := 255, b := 255, a := 255 }
          pixel_format := 0
          font_tex := none
          commands := []
          color_buffer := none
          color_array_count := 0 }
      match SDL_VTXT_ResetTexture env.texture ret2 0 with
      | none => none
      | some r => some (some r.1)

/-! ## Concrete inputs -/

/-- A shaper for evaluating the definitions: its state is the cursor and the
number of quads accumulated; a line adds one quad per character, a glyph adds
one quad, and the harvested buffer has 4 vertices and 6 indices per quad. -/
def quadShaper : Shaper (Int × Int × Nat) where
  vtxt_move_cursor := fun x y s => (x, y, s.2.2)
  vtxt_append_line := fun line _ size s =>
    (s.1 + size * ((line.getD "").length : Int), s.2.1, s.2.2 + (line.getD "").length)
  vtxt_new_line := fun x _ s => (x, s.2.1 + 1, s.2.2)
  vtxt_append_glyph := fun _ _ size s => (s.1 + size, s.2.1, s.2.2 + 1)
  vtxt_grab_buffer := fun s => { vertex_count := 4 * s.2.2, indices_array_count := 6 * s.2.2 }
  vtxt_clear_buffer := fun s => (s.1, s.2.1, 0)

/-- White at full alpha, the default tint. -/
def white : SDL_Color := { r := 255, g := 255, b := 255, a := 255 }

/-- An object as the example program has it after `SDL_VTXT_SetCursor(vf, 100, 200)`:
no command, no colour buffer. -/
def vfFresh : SDL_VTXT :=
  { text_size := 24, cursor_x := 100, cursor_y := 200, text_color := white,
    font_handle := { font_atlas := { width := 1, height := 1, pixels := [0] } },
    pixel_format := 0, font_tex := none, color_buffer := none, color_array_count := 0,
    commands := [] }

/-- The object `vfFresh` after `SDL_VTXT_AppendGlyph(vf, 'a')`. -/
def vfGlyph : SDL_VTXT :=
  { vfFresh with
    commands :=
      [{ op := VTXTOperation.kVTXTOperation_AppendGlyph, line := none, cursor_x := 0,
         glyph := 'a' }] }

/-- The object `vfGlyph` after a render call in which `SDL_realloc` returned a
block: the colour buffer holds the 4 colours of the quad. -/
def vfDrawn : SDL_VTXT :=
  { vfGlyph with color_buffer := some [white, white, white, white], color_array_count := 4 }

/-- The object `vfDrawn` after `SDL_VTXT_Clear`: the queue is empty, the colour
buffer still holds the 4 colours of the last frame. -/
def vfCleared : SDL_VTXT :=
  { vfDrawn with commands := [] }

/-- An environment in which `SDL_realloc` returns a block and the draw call succeeds. -/
def envOk : RenderEnv :=
  { alloc := { realloc_ok := true, junk := { r := 0, g := 0, b := 0, a := 0 } },
    draw_result := 0 }

/-- An environment in which `SDL_realloc` returns `NULL` and the draw call succeeds. -/
def envReallocNull : RenderEnv :=
  { alloc := { realloc_ok := false, junk := { r := 0, g := 0, b := 0, a := 0 } },
    draw_result := 0 }

/-- An environment in which `SDL_realloc` returns a block and the renderer
rejects the draw call. -/
def envDrawRejected : RenderEnv :=
  { alloc := { realloc_ok := true, junk := { r := 0, g := 0, b := 0, a := 0 } },
    draw_result := -1 }

/-- What a block returned by `SDL_malloc(sizeof(VTXTCommand))` may hold before
it is written. -/
def garbageCommand : VTXTCommand :=
  { op := VTXTOperation.kVTXTOperation_NewLine, line := none, cursor_x := 77, glyph := 'z' }

/-- The recording calls of the example program on its first object, each with an
`SDL_malloc` that returns a block. -/
def exampleSteps : List (QueueCall × Option VTXTCommand) :=
  [(QueueCall.AppendLine (some "The quick brown fox"), some garbageCommand),
    (QueueCall.NewLine 100, some garbageCommand),
    (QueueCall.AppendLine (some "jumps over the lazy dog"), some garbageCommand),
    (QueueCall.AppendGlyph '.', some garbageCommand)]

/-- An atlas one pixel wide and two pixels high. -/
def atlas2 : vtxt_bitmap := { width := 1, height := 2, pixels := [10, 20] }

/-- An object whose font has the atlas `atlas2`. -/
def vfAtlas2 : SDL_VTXT :=
  { vfFresh with font_handle := { font_atlas := atlas2 } }

/-- A renderer that creates and locks the texture and reports rows of 8 bytes. -/
def envPitch8 : TextureEnv :=
  { pixel_format := 373694468, create_ok := true, lock_ok := true, pitch := 8, junk := 0 }

/-- What a block returned by `SDL_malloc` may hold before it is written. -/
def garbage : SDL_VTXT :=
  { text_size := 99, cursor_x := 7, cursor_y := -3,
    text_color := { r := 1, g := 2, b := 3, a := 4 },
    font_handle := { font_atlas := { width := 0, height := 0, pixels := [] } },
    pixel_format := 5, font_tex := none, color_buffer := some [], color_array_count := 6,
    commands := [] }

/-- A construction environment: a font file of 3 bytes read in two steps, a
shaper that builds `atlas2` and returns `code`, a renderer whose
`SDL_CreateTexture` succeeds or not as `create_ok` says and whose locked rows
have no padding. -/
def envInit (code : Int) (create_ok : Bool) : InitEnv :=
  { file := some { size := 3, data := [1, 2, 3], reads := [2, 1] }
    uninit := garbage
    vtxt_init_font := fun _ _ => ({ font_atlas := atlas2 }, code)
    texture :=
      { pixel_format := 373694468, create_ok := create_ok, lock_ok := true, pitch := 4,
        junk := 0 } }

/-! ## Theorems -/

theorem AddCommand_walk_eq (q : List VTXTCommand) (cmd : VTXTCommand) :
    SDL_VTXT_AddCommand_walk q cmd = q ++ [cmd] := by
  induction q with
  | nil => rfl
  | cons c n ih => simp [SDL_VTXT_AddCommand_walk, ih]

theorem run_eq (vfont : SDL_VTXT) (blk : VTXTCommand) (c : QueueCall) :
    QueueCall.run vfont (some blk) c =
      some ({ vfont with commands := vfont.commands ++ [c.node] }, 0) := by
  cases c <;>
    simp [QueueCall.run, QueueCall.node, SDL_VTXT_AppendLine, SDL_VTXT_NewLine,
      SDL_VTXT_AppendGlyph, SDL_VTXT_AddCommand, AddCommand_walk_eq]

theorem run_null (vfont : SDL_VTXT) (c : QueueCall) : QueueCall.run vfont none c = none := by
  cases c <;> rfl

theorem carries_node (c : QueueCall) : carries c c.node := by
  cases c <;> simp [carries, QueueCall.node]

theorem runCalls_eq (steps : List (QueueCall × Option VTXTCommand)) :
    (∀ step ∈ steps, step.2 ≠ none) → ∀ vfont : SDL_VTXT,
    runCalls vfont steps =
      some ({ vfont with commands := vfont.commands ++ steps.map (fun step => step.1.node) },
        List.replicate steps.length 0) := by
  induction steps with
  | nil => intro _ vfont; simp [runCalls]
  | cons step rest ih =>
    intro hm vfont
    obtain ⟨c, cmd⟩ := step
    cases cmd with
    | none => exact absurd rfl (hm (c, none) (List.mem_cons_self _ _))
    | some blk =>
      have hrest : ∀ st ∈ rest, st.2 ≠ none := fun st hst => hm st (List.mem_cons_of_mem _ hst)
      simp [runCalls, run_eq, ih hrest, List.replicate_succ]

/-- The object `vfGlyph` is what `SDL_VTXT_AppendGlyph(vf, 'a')` makes of `vfFresh`
when `SDL_malloc` returns a block. -/
theorem vfGlyph_reached :
    SDL_VTXT_AppendGlyph vfFresh (some garbageCommand) 'a' = some (vfGlyph, 0) := by
  decide

/-- C1 (counterexample): when `SDL_malloc` returns `NULL`, each of the three
recording functions stores through `NULL` and is undefined, so it does not
return 0, and a sequence of calls that contains such a call is undefined. -/
theorem C1_append_through_null :
    SDL_VTXT_AppendLine vfFresh none (some "Hi") = none ∧
      SDL_VTXT_NewLine vfFresh none 100 = none ∧
      SDL_VTXT_AppendGlyph vfFresh none 'a' = none ∧
      runCalls vfFresh
          [(QueueCall.AppendGlyph 'a', some garbageCommand), (QueueCall.NewLine 100, none)] =
        none :=
  ⟨rfl, rfl, rfl, rfl⟩

/-- C1 (amended): after any finite sequence of AppendLine / NewLine / AppendGlyph
calls in each of which `SDL_malloc` returns a block, the queue is the queue
before followed by exactly one command per call, in call order, each carrying
the tag and argument of its call; its length grows by the number of calls, the
earlier commands are unchanged, every call returns 0, and no other field
changes. -/
theorem C1_queue_append (vfont : SDL_VTXT) (steps : List (QueueCall × Option VTXTCommand))
    (hmalloc : ∀ step ∈ steps, step.2 ≠ none) :
    ∃ (added : List VTXTCommand) (returned : List Int),
      runCalls vfont steps =
        some ({ vfont with commands := vfont.commands ++ added }, returned) ∧
      List.Forall₂ carries (steps.map (fun step => step.1)) added ∧
      (vfont.commands ++ added).length = vfont.commands.length + steps.length ∧
      (vfont.commands ++ added).take vfont.commands.length = vfont.commands ∧
      returned.length = steps.length ∧
      ∀ r ∈ returned, r = 0 := by
  refine ⟨steps.map (fun step => step.1.node), List.replicate steps.length 0,
    runCalls_eq steps hmalloc vfont, ?_, ?_, ?_, ?_, ?_⟩
  · clear hmalloc
    induction steps with
    | nil => exact List.Forall₂.nil
    | cons step rest ih => exact List.Forall₂.cons (carries_node step.1) ih
  · simp
  · simp
  · simp
  · intro r hr
    exact List.eq_of_mem_replicate hr

/-- C1 (witness): the four recording calls of the example program on `vfFresh`. -/
theorem C1_queue_append_witness :
    (∀ step ∈ exampleSteps, step.2 ≠ none) ∧
      ∃ (added : List VTXTCommand) (returned : List Int),
        runCalls vfFresh exampleSteps =
          some ({ vfFresh with commands := vfFresh.commands ++ added }, returned) ∧
        List.Forall₂ carries (exampleSteps.map (fun step => step.1)) added ∧
        (vfFresh.commands ++ added).length = vfFresh.commands.length + exampleSteps.length ∧
        (vfFresh.commands ++ added).take vfFresh.commands.length = vfFresh.commands ∧
        returned.length = exampleSteps.length ∧
        ∀ r ∈ returned, r = 0 :=
  ⟨by simp [exampleSteps],
    C1_queue_append vfFresh exampleSteps (by simp [exampleSteps])⟩

/-! ### Colour buffer lemmas -/

theorem fill_loop_segment (tint : SDL_Color) (k : Nat) :
    ∀ (pre mid post : List SDL_Color), mid.length = k →
      SDL_VTXT_FillColorBuffer_loop tint k pre.length (some (pre ++ mid ++ post)) =
        some (some (pre ++ List.replicate k tint ++ post)) := by
  induction k with
  | zero =>
    intro pre mid post hmid
    have hnil : mid = [] := List.length_eq_zero.mp hmid
    subst hnil
    simp [SDL_VTXT_FillColorBuffer_loop]
  | succ k ih =>
    intro pre mid post hmid
    cases mid with
    | nil => simp at hmid
    | cons m mid1 =>
      have hlen : mid1.length = k := by simpa using hmid
      have hstep := ih (pre ++ [tint]) mid1 post hlen
      have hset : (pre ++ m :: mid1 ++ post).set pre.length tint =
          pre ++ [tint] ++ mid1 ++ post := by
        simp [List.set_append]
      have hlt : pre.length < (pre ++ m :: mid1 ++ post).length := by
        simp
      unfold SDL_VTXT_FillColorBuffer_loop
      simp only [hlt, if_true, hset]
      have hpl : (pre ++ [tint]).length = pre.length + 1 := by simp
      rw [hpl] at hstep
      rw [hstep]
      simp [List.replicate_succ]

theorem fill_holds (vfont : SDL_VTXT) (hwf : ColorBufferHolds vfont) :
    ∃ buf, SDL_VTXT_FillColorBuffer vfont = some ({ vfont with color_buffer := buf }, 0) ∧
      elems buf = List.replicate vfont.color_array_count vfont.text_color ∧
      (vfont.color_buffer = none → buf = none) := by
  unfold ColorBufferHolds at hwf
  cases hbuf : vfont.color_buffer with
  | none =>
    rw [hbuf] at hwf
    have h0 : vfont.color_array_count = 0 := by simpa [elems] using hwf.symm
    refine ⟨none, ?_, ?_, fun _ => rfl⟩
    · simp [SDL_VTXT_FillColorBuffer, hbuf, h0, SDL_VTXT_FillColorBuffer_loop]
    · simp [elems, h0]
  | some l =>
    rw [hbuf] at hwf
    have hl : l.length = vfont.color_array_count := by simpa [elems] using hwf
    have hseg := fill_loop_segment vfont.text_color vfont.color_array_count [] l [] hl
    simp only [List.nil_append, List.append_nil, List.length_nil] at hseg
    refine ⟨some (List.replicate vfont.color_array_count vfont.text_color), ?_, ?_, ?_⟩
    · simp [SDL_VTXT_FillColorBuffer, hbuf, hseg]
    · simp [elems]
    · intro h; simp at h

theorem resize_same (env : AllocEnv) (vfont : SDL_VTXT) (size : Nat)
    (h : vfont.color_array_count = size) :
    SDL_VTXT_ResizeColorBuffer env vfont size = (vfont, 0) := by
  simp [SDL_VTXT_ResizeColorBuffer, h]

theorem resize_ok (env : AllocEnv) (vfont : SDL_VTXT) (size : Nat)
    (h : vfont.color_array_count ≠ size) (hok : env.realloc_ok = true) :
    SDL_VTXT_ResizeColorBuffer env vfont size =
      ({ vfont with
          color_buffer := some ((elems vfont.color_buffer).take size ++
            List.replicate (size - (elems vfont.color_buffer).length) env.junk)
          color_array_count := size }, 0) := by
  simp [SDL_VTXT_ResizeColorBuffer, h, SDL_realloc, hok]

theorem resize_null (env : AllocEnv) (vfont : SDL_VTXT) (size : Nat)
    (h : vfont.color_array_count ≠ size) (hok : env.realloc_ok = false) :
    SDL_VTXT_ResizeColorBuffer env vfont size = ({ vfont with color_buffer := none }, -1) := by
  simp [SDL_VTXT_ResizeColorBuffer, h, SDL_realloc, hok]

/-- Resize followed by fill, whenever the fill does not meet a `NULL` buffer with
a non-zero count: the object gets a buffer `buf` and a count `cnt`, every element
is the tint, and the count is the requested size unless `SDL_realloc` returned
`NULL`, in which case the count is still 0 and the buffer is `NULL`. -/
theorem resize_fill (env : AllocEnv) (vfont : SDL_VTXT) (size : Nat)
    (hwf : ColorBufferHolds vfont)
    (hsafe : size = vfont.color_array_count ∨ env.realloc_ok = true ∨
      vfont.color_array_count = 0) :
    ∃ buf cnt,
      SDL_VTXT_FillColorBuffer (SDL_VTXT_ResizeColorBuffer env vfont size).1 =
        some ({ vfont with color_buffer := buf, color_array_count := cnt }, 0) ∧
      elems buf = List.replicate cnt vfont.text_color ∧
      ((cnt = size ∧ (size = vfont.color_array_count ∨ env.realloc_ok = true)) ∨
        (cnt = 0 ∧ buf = none ∧ env.realloc_ok = false ∧ size ≠ 0)) := by
  by_cases hsz : vfont.color_array_count = size
  · rw [resize_same env vfont size hsz]
    obtain ⟨buf, hfill, helems, _⟩ := fill_holds vfont hwf
    refine ⟨buf, vfont.color_array_count, ?_, helems, Or.inl ⟨hsz, Or.inl hsz.symm⟩⟩
    simpa using hfill
  · cases hok : env.realloc_ok with
    | true =>
      rw [resize_ok env vfont size hsz hok]
      have hwf2 : ColorBufferHolds
          { vfont with
            color_buffer := some ((elems vfont.color_buffer).take size ++
              List.replicate (size - (elems vfont.color_buffer).length) env.junk)
            color_array_count := size } := by
        simp only [ColorBufferHolds, elems, List.length_append, List.length_take,
          List.length_replicate]
        omega
      obtain ⟨buf, hfill, helems, _⟩ := fill_holds _ hwf2
      exact ⟨buf, size, by simpa using hfill, by simpa using helems, Or.inl ⟨rfl, Or.inr rfl⟩⟩
    | false =>
      have h0 : vfont.color_array_count = 0 := by
        rcases hsafe with h | h | h
        · exact absurd h.symm hsz
        · rw [hok] at h; exact absurd h (by decide)
        · exact h
      rw [resize_null env vfont size hsz hok]
      have hwf2 : ColorBufferHolds { vfont with color_buffer := none } := by
        simp [ColorBufferHolds, elems, h0]
      obtain ⟨buf, hfill, helems, hnone⟩ := fill_holds _ hwf2
      have hb : buf = none := hnone rfl
      subst hb
      refine ⟨none, 0, ?_, by simp [elems], Or.inr ⟨rfl, rfl, rfl, ?_⟩⟩
      · rw [hfill]; simp [h0.symm]
      · intro h; exact hsz (by omega)

/-! ### Render lemmas -/

theorem render_commands_calls {σ : Type} (sh : Shaper σ) (vfont : SDL_VTXT)
    (cmds : List VTXTCommand) : ∀ s : σ,
    (SDL_VTXT_Render_commands sh vfont cmds s).2 = cmds.map (shaperCall vfont) := by
  induction cmds with
  | nil => intro s; rfl
  | cons cmd next ih =>
    intro s
    simp only [SDL_VTXT_Render_commands, List.map_cons, ih]
    cases hop : cmd.op <;> simp [shaperCall, hop]

/-- A render call whose fill does not meet a `NULL` buffer with a non-zero count
returns; the lemma gives the object, the shaper state, the calls and the value
it returns. -/
theorem render_safe {σ : Type} (sh : Shaper σ) (env : RenderEnv) (vfont : SDL_VTXT) (s : σ)
    (hwf : ColorBufferHolds vfont) (hsafe : ReallocSafe sh env vfont s) :
    ∃ buf cnt,
      SDL_VTXT_Render sh env vfont s =
        some
          { vfont := { vfont with color_buffer := buf, color_array_count := cnt }
            shaper := sh.vtxt_clear_buffer (replayed sh vfont s)
            calls :=
              Call.move_cursor vfont.cursor_x vfont.cursor_y ::
                vfont.commands.map (shaperCall vfont) ++
                [Call.grab_buffer,
                  Call.render_geometry vfont.font_tex buf (harvested sh vfont s).vertex_count
                    (harvested sh vfont s).indices_array_count,
                  Call.clear_buffer]
            ret := 0 } ∧
      elems buf = List.replicate cnt vfont.text_color ∧
      ((cnt = (harvested sh vfont s).vertex_count ∧
          ((harvested sh vfont s).vertex_count = vfont.color_array_count ∨
            env.alloc.realloc_ok = true)) ∨
        (cnt = 0 ∧ buf = none ∧ env.alloc.realloc_ok = false ∧
          (harvested sh vfont s).vertex_count ≠ 0)) := by
  obtain ⟨buf, cnt, hfill, helems, hcnt⟩ :=
    resize_fill env.alloc vfont (harvested sh vfont s).vertex_count hwf hsafe
  refine ⟨buf, cnt, ?_, helems, hcnt⟩
  unfold harvested replayed at hfill
  simp only [SDL_VTXT_Render, hfill, render_commands_calls]
  rfl

theorem clear_free_all (q : List VTXTCommand) : SDL_VTXT_Clear_free q = q.length := by
  induction q with
  | nil => rfl
  | cons c n ih => simp [SDL_VTXT_Clear_free, ih]

theorem quadShaper_empty :
    IsEmptyAccumulator quadShaper (fun s => s.2.2 = 0) where
  clear := fun _ => rfl
  move := by
    intro x y t u ht hu
    simp only [quadShaper]
    rw [ht, hu]
  grab := by
    intro x y t ht
    simp only [quadShaper]
    rw [ht]

theorem render_commands_congr {σ : Type} (sh : Shaper σ) (v1 v2 : SDL_VTXT)
    (hfont : v1.font_handle = v2.font_handle) (hsize : v1.text_size = v2.text_size)
    (cmds : List VTXTCommand) : ∀ s : σ,
    SDL_VTXT_Render_commands sh v1 cmds s = SDL_VTXT_Render_commands sh v2 cmds s := by
  induction cmds with
  | nil => intro s; rfl
  | cons cmd next ih =>
    intro s
    simp only [SDL_VTXT_Render_commands, hfont, hsize, ih]

/-- Changing only the colour buffer and its count does not change what a render
call replays and harvests, and neither does starting from another state with an
empty accumulator. -/
theorem harvested_stable {σ : Type} (sh : Shaper σ) (empty : σ → Prop)
    (hsh : IsEmptyAccumulator sh empty) (vfont : SDL_VTXT) (buf : Option (List SDL_Color))
    (cnt : Nat) (s t : σ) (hs : empty s) (ht : empty t) :
    replayed sh { vfont with color_buffer := buf, color_array_count := cnt } t =
      replayed sh vfont s := by
  unfold replayed
  rw [render_commands_congr sh { vfont with color_buffer := buf, color_array_count := cnt }
    vfont rfl rfl]
  show (SDL_VTXT_Render_commands sh vfont vfont.commands
      (sh.vtxt_move_cursor vfont.cursor_x vfont.cursor_y t)).1 = _
  rw [hsh.move vfont.cursor_x vfont.cursor_y t s ht hs]

/-- Off the `NULL`-fill path, a render call issues exactly: the cursor move, one
shaper call per queued command in queue order, the harvest, one draw call with
the harvested counts, and the accumulator clear. -/
theorem render_issues_sequence {σ : Type} (sh : Shaper σ) (env : RenderEnv)
    (vfont : SDL_VTXT) (s : σ) (hwf : ColorBufferHolds vfont)
    (hsafe : ReallocSafe sh env vfont s) :
    ∃ r, SDL_VTXT_Render sh env vfont s = some r ∧
      r.calls =
        Call.move_cursor vfont.cursor_x vfont.cursor_y ::
          vfont.commands.map (shaperCall vfont) ++
          [Call.grab_buffer,
            Call.render_geometry vfont.font_tex r.vfont.color_buffer
              (harvested sh vfont s).vertex_count (harvested sh vfont s).indices_array_count,
            Call.clear_buffer] := by
  obtain ⟨buf, cnt, hr, _, _⟩ := render_safe sh env vfont s hwf hsafe
  exact ⟨_, hr, rfl⟩

/-- Off the `NULL`-fill path, two consecutive render calls (the second in any
environment) both return, leave the queue, cursor, tint and text size as they
were, and issue the same shaper calls and draw calls with the same vertex and
index counts. -/
theorem render_twice_same_counts {σ : Type} (sh : Shaper σ) (empty : σ → Prop)
    (hsh : IsEmptyAccumulator sh empty) (env1 env2 : RenderEnv) (vfont : SDL_VTXT) (s : σ)
    (hs : empty s) (hwf : ColorBufferHolds vfont) (hsafe : ReallocSafe sh env1 vfont s) :
    ∃ r1 r2 shaperCalls nv ni c1 c2,
      SDL_VTXT_Render sh env1 vfont s = some r1 ∧
      SDL_VTXT_Render sh env2 r1.vfont r1.shaper = some r2 ∧
      r1.vfont.commands = vfont.commands ∧ r2.vfont.commands = vfont.commands ∧
      r1.vfont.cursor_x = vfont.cursor_x ∧ r2.vfont.cursor_x = vfont.cursor_x ∧
      r1.vfont.cursor_y = vfont.cursor_y ∧ r2.vfont.cursor_y = vfont.cursor_y ∧
      r1.vfont.text_color = vfont.text_color ∧ r2.vfont.text_color = vfont.text_color ∧
      r1.vfont.text_size = vfont.text_size ∧ r2.vfont.text_size = vfont.text_size ∧
      r1.calls = shaperCalls ++
        [Call.grab_buffer, Call.render_geometry vfont.font_tex c1 nv ni, Call.clear_buffer] ∧
      r2.calls = shaperCalls ++
        [Call.grab_buffer, Call.render_geometry vfont.font_tex c2 nv ni, Call.clear_buffer] := by
  obtain ⟨buf, cnt, hr1, helems, hcnt⟩ := render_safe sh env1 vfont s hwf hsafe
  have hrep : replayed sh { vfont with color_buffer := buf, color_array_count := cnt }
      (sh.vtxt_clear_buffer (replayed sh vfont s)) = replayed sh vfont s :=
    harvested_stable sh empty hsh vfont buf cnt s _ hs (hsh.clear _)
  have hharv : harvested sh { vfont with color_buffer := buf, color_array_count := cnt }
      (sh.vtxt_clear_buffer (replayed sh vfont s)) = harvested sh vfont s := by
    unfold harvested; rw [hrep]
  have hwf2 : ColorBufferHolds { vfont with color_buffer := buf, color_array_count := cnt } := by
    simp [ColorBufferHolds, helems]
  have hsafe2 : ReallocSafe sh env2
      { vfont with color_buffer := buf, color_array_count := cnt }
      (sh.vtxt_clear_buffer (replayed sh vfont s)) := by
    unfold ReallocSafe
    rw [hharv]
    rcases hcnt with ⟨h, _⟩ | ⟨h, _⟩
    · exact Or.inl h.symm
    · exact Or.inr (Or.inr h)
  obtain ⟨buf2, cnt2, hr2, _, _⟩ := render_safe sh env2 _ _ hwf2 hsafe2
  rw [hharv, hrep] at hr2
  exact ⟨_, _, Call.move_cursor vfont.cursor_x vfont.cursor_y ::
      vfont.commands.map (shaperCall vfont), (harvested sh vfont s).vertex_count,
    (harvested sh vfont s).indices_array_count, buf, buf2, hr1, hr2,
    rfl, rfl, rfl, rfl, rfl, rfl, rfl, rfl, rfl, rfl, rfl, rfl⟩

/-- `SDL_VTXT_Clear` returns 0 and empties the queue, changing no other field;
off the `NULL`-fill path the render call made directly after it, with an empty
accumulator, issues only the cursor move, the harvest, one draw call with zero
vertices and zero indices, and the accumulator clear. -/
theorem clear_then_render {σ : Type} (sh : Shaper σ) (empty : σ → Prop)
    (hsh : IsEmptyAccumulator sh empty) (env : RenderEnv) (vfont : SDL_VTXT) (s : σ)
    (hs : empty s) (hwf : ColorBufferHolds vfont)
    (hsafe : env.alloc.realloc_ok = true ∨ vfont.color_array_count = 0) :
    SDL_VTXT_Clear vfont = ({ vfont with commands := [] }, 0) ∧
      ∃ r, SDL_VTXT_Render sh env (SDL_VTXT_Clear vfont).1 s = some r ∧
        r.calls =
          [Call.move_cursor vfont.cursor_x vfont.cursor_y, Call.grab_buffer,
            Call.render_geometry vfont.font_tex r.vfont.color_buffer 0 0,
            Call.clear_buffer] := by
  have hclear : SDL_VTXT_Clear vfont = ({ vfont with commands := [] }, 0) := by
    simp [SDL_VTXT_Clear]
  refine ⟨hclear, ?_⟩
  rw [hclear]
  have hharv : harvested sh { vfont with commands := [] } s =
      { vertex_count := 0, indices_array_count := 0 } := by
    simp only [harvested, replayed, SDL_VTXT_Render_commands]
    exact hsh.grab _ _ s hs
  have hwf2 : ColorBufferHolds { vfont with commands := [] } := hwf
  have hsafe2 : ReallocSafe sh env { vfont with commands := [] } s := by
    unfold ReallocSafe
    rcases hsafe with h | h
    · exact Or.inr (Or.inl h)
    · exact Or.inr (Or.inr h)
  obtain ⟨r, hr, hcalls⟩ := render_issues_sequence sh env _ s hwf2 hsafe2
  refine ⟨r, hr, ?_⟩
  rw [hcalls, hharv]
  rfl

/-- The colour-buffer invariant holds after every render call that stays off the
`NULL`-fill path. -/
theorem render_keeps_holds {σ : Type} (sh : Shaper σ) (env : RenderEnv) (vfont : SDL_VTXT)
    (s : σ) (hwf : ColorBufferHolds vfont) (hsafe : ReallocSafe sh env vfont s) :
    ∃ r, SDL_VTXT_Render sh env vfont s = some r ∧ ColorBufferHolds r.vfont := by
  obtain ⟨buf, cnt, hr, helems, _⟩ := render_safe sh env vfont s hwf hsafe
  refine ⟨_, hr, ?_⟩
  simp [ColorBufferHolds, helems]

/-- The recording calls and `SDL_VTXT_Clear` do not touch the colour buffer. -/
theorem queue_keeps_holds (vfont : SDL_VTXT) (steps : List (QueueCall × Option VTXTCommand))
    (hmalloc : ∀ step ∈ steps, step.2 ≠ none) (hwf : ColorBufferHolds vfont) :
    (∃ r, runCalls vfont steps = some r ∧ ColorBufferHolds r.1) ∧
      ColorBufferHolds (SDL_VTXT_Clear vfont).1 :=
  ⟨⟨_, runCalls_eq steps hmalloc vfont, hwf⟩, hwf⟩

/-! ### Atlas texture lemmas -/

theorem texel_length (c : Int) (v : Nat) : (texel c v).length = 4 := by
  unfold texel; split <;> rfl

theorem texels_length (c : Int) (l : List Nat) : (texels c l).length = 4 * l.length := by
  induction l with
  | nil => rfl
  | cons v vs ih => simp [texels, texel_length, ih]; omega

theorem texels_append (c : Int) (l r : List Nat) :
    texels c (l ++ r) = texels c l ++ texels c r := by
  induction l with
  | nil => rfl
  | cons v vs ih => simp [texels, ih]

theorem take_drop_append (l r : List Nat) (k : Nat) :
    l.take k ++ (l.drop k ++ r) = l ++ r := by
  rw [← List.append_assoc, List.take_append_drop]

/-- One pass through the body of the inner loop, on a block that has four bytes
at `rgba` and an atlas that has a byte at `alpha_idx`. -/
theorem pixel_step (atlas : List Nat) (c : Int) (a v m0 m1 m2 m3 : Nat)
    (pre post : List Nat) (hv : atlas.get? a = some v) :
    SDL_VTXT_ResetTexture_pixel atlas c
        { alpha_idx := a, rgba := pre.length, pixels := some (pre ++ [m0, m1, m2, m3] ++ post) } =
      some { alpha_idx := a + 1, rgba := pre.length + 4,
             pixels := some (pre ++ texel c v ++ post) } := by
  have hv2 : atlas[a]? = some v := by simpa using hv
  by_cases hc : c = 0
  · simp [SDL_VTXT_ResetTexture_pixel, TexLoop.store, hv2, hc, texel, List.set_append]
  · simp [SDL_VTXT_ResetTexture_pixel, TexLoop.store, hv2, hc, texel, List.set_append]

/-- The inner loop with `n` iterations to go: it turns the next `n` atlas bytes
into the next `4 * n` bytes of the block. -/
theorem row_run (atlas : List Nat) (c : Int) (pitch : Nat) (apost post : List Nat) (n : Nat) :
    ∀ (fuel col_byte : Nat) (apre vs pre mid : List Nat),
      atlas = apre ++ vs ++ apost → vs.length = n → mid.length = 4 * n → n ≤ fuel →
      col_byte + 4 * n = pitch →
      SDL_VTXT_ResetTexture_row atlas c pitch fuel col_byte
          { alpha_idx := apre.length, rgba := pre.length, pixels := some (pre ++ mid ++ post) } =
        some { alpha_idx := apre.length + n, rgba := pre.length + 4 * n,
               pixels := some (pre ++ texels c vs ++ post) } := by
  induction n with
  | zero =>
    intro fuel col_byte apre vs pre mid _ hvs hmid _ hcol
    have h1 : vs = [] := List.length_eq_zero.mp hvs
    have h2 : mid = [] := List.length_eq_zero.mp (by simpa using hmid)
    subst h1 h2
    have hnlt : ¬ col_byte < pitch := by omega
    cases fuel <;> simp [SDL_VTXT_ResetTexture_row, hnlt, texels]
  | succ n ih =>
    intro fuel col_byte apre vs pre mid hat hvs hmid hfuel hcol
    obtain ⟨fuel1, rfl⟩ : ∃ f, fuel = f + 1 := ⟨fuel - 1, by omega⟩
    cases vs with
    | nil => simp at hvs
    | cons v vs1 =>
      match mid, hmid with
      | m0 :: m1 :: m2 :: m3 :: mid1, hmid =>
        have hlt : col_byte < pitch := by omega
        have hv : atlas.get? apre.length = some v := by
          rw [hat, List.append_assoc, List.get?_eq_getElem?,
            List.getElem?_append_right (Nat.le_refl _)]
          simp
        have hpix := pixel_step atlas c apre.length v m0 m1 m2 m3 pre (mid1 ++ post) hv
        have hblock : pre ++ (m0 :: m1 :: m2 :: m3 :: mid1) ++ post =
            pre ++ [m0, m1, m2, m3] ++ (mid1 ++ post) := by simp
        have hrec := ih fuel1 (col_byte + 4) (apre ++ [v]) vs1 (pre ++ texel c v) mid1
          (by rw [hat]; simp) (by simpa using hvs) (by simp at hmid; omega) (by omega)
          (by omega)
        simp only [List.length_append, List.length_singleton, texel_length] at hrec
        rw [SDL_VTXT_ResetTexture_row]
        simp only [hlt, if_true, hblock, hpix]
        have hassoc : pre ++ texel c v ++ (mid1 ++ post) = pre ++ texel c v ++ mid1 ++ post := by
          simp
        rw [hassoc, hrec]
        have e1 : apre.length + 1 + n = apre.length + (n + 1) := by omega
        have e2 : pre.length + 4 + 4 * n = pre.length + 4 * (n + 1) := by omega
        rw [e1, e2]
        simp [texels]
      | [], hmid => simp at hmid
      | [_], hmid => simp at hmid; omega
      | [_, _], hmid => simp at hmid; omega
      | [_, _, _], hmid => simp at hmid; omega

/-- The outer loop on rows without padding (`pitch = 4 * w`): `h` rows turn the
next `h * w` atlas bytes into the next `4 * h * w` bytes of the block. -/
theorem rows_run (atlas : List Nat) (c : Int) (w : Nat) (apost post : List Nat) (h : Nat) :
    ∀ (apre vs pre mid : List Nat),
      atlas = apre ++ vs ++ apost → vs.length = h * w → mid.length = 4 * (h * w) →
      SDL_VTXT_ResetTexture_rows atlas c (4 * w) h
          { alpha_idx := apre.length, rgba := pre.length, pixels := some (pre ++ mid ++ post) } =
        some { alpha_idx := apre.length + h * w, rgba := pre.length + 4 * (h * w),
               pixels := some (pre ++ texels c vs ++ post) } := by
  induction h with
  | zero =>
    intro apre vs pre mid _ hvs hmid
    have h1 : vs = [] := List.length_eq_zero.mp (by simpa using hvs)
    have h2 : mid = [] := List.length_eq_zero.mp (by simpa using hmid)
    subst h1 h2
    simp [SDL_VTXT_ResetTexture_rows, texels]
  | succ h ih =>
    intro apre vs pre mid hat hvs hmid
    have hvs2 : vs.length = w + h * w := by rw [hvs]; ring
    have hmid2 : mid.length = 4 * w + 4 * (h * w) := by rw [hmid]; ring
    have hrow := row_run atlas c (4 * w) (vs.drop w ++ apost) (mid.drop (4 * w) ++ post) w
      (4 * w) 0 apre (vs.take w) pre (mid.take (4 * w))
      (by rw [hat, List.append_assoc, List.append_assoc, take_drop_append])
      (by simp [hvs2]) (by simp [hmid2]) (by omega) (by omega)
    have hblock : pre ++ mid ++ post = pre ++ mid.take (4 * w) ++ (mid.drop (4 * w) ++ post) := by
      rw [List.append_assoc, List.append_assoc, take_drop_append]
    have hrec := ih (apre ++ vs.take w) (vs.drop w) (pre ++ texels c (vs.take w))
      (mid.drop (4 * w))
      (by rw [hat, List.append_assoc, List.append_assoc, List.append_assoc, take_drop_append])
      (by simp [hvs2]) (by simp [hmid2])
    have hlen1 : (apre ++ vs.take w).length = apre.length + w := by simp [hvs2]
    have hlen2 : (pre ++ texels c (vs.take w)).length = pre.length + 4 * w := by
      simp [texels_length, hvs2]
    rw [hlen1, hlen2] at hrec
    have hassoc : pre ++ texels c (vs.take w) ++ (mid.drop (4 * w) ++ post) =
        pre ++ texels c (vs.take w) ++ mid.drop (4 * w) ++ post := by
      simp
    rw [SDL_VTXT_ResetTexture_rows, hblock, hrow]
    simp only [hassoc, hrec]
    have e1 : apre.length + w + h * w = apre.length + (h + 1) * w := by ring
    have e2 : pre.length + 4 * w + 4 * (h * w) = pre.length + 4 * ((h + 1) * w) := by ring
    have e3 : pre ++ texels c (vs.take w) ++ texels c (vs.drop w) = pre ++ texels c vs := by
      rw [List.append_assoc, ← texels_append, List.take_append_drop]
    rw [e1, e2, e3]

/-- With rows without padding (`pitch = 4 * width`) the loops of
`SDL_VTXT_ResetTexture` are defined and leave in the block the texels of the
atlas bytes, in atlas order. -/
theorem resetTexture_unpadded (atlas : vtxt_bitmap) (c : Int) (junk : Nat)
    (hlen : atlas.pixels.length = atlas.width * atlas.height) :
    SDL_VTXT_ResetTexture_bytes atlas c (4 * atlas.width) junk =
      some (texels c atlas.pixels) := by
  have hrun := rows_run atlas.pixels c atlas.width [] [] atlas.height [] atlas.pixels []
    (List.replicate (4 * atlas.width * atlas.height) junk) (by simp)
    (by rw [hlen, Nat.mul_comm]) (by simp; ring)
  simp only [List.nil_append, List.append_nil, List.length_nil] at hrun
  simp only [SDL_VTXT_ResetTexture_bytes, hrun]

theorem texels_get (c : Int) (l : List Nat) :
    ∀ (i k : Nat), i < l.length → k < 4 →
      (texels c l).get? (4 * i + k) = (l.get? i).bind (fun v => (texel c v).get? k) := by
  induction l with
  | nil => intro i k hi; simp at hi
  | cons v vs ih =>
    intro i k hi hk
    cases i with
    | zero =>
      simp only [texels, Nat.mul_zero, Nat.zero_add, List.get?_eq_getElem?]
      rw [List.getElem?_append_left (by rw [texel_length]; exact hk)]
      simp
    | succ j =>
      have hj : j < vs.length := by simpa using hi
      have := ih j k hj hk
      simp only [texels, List.get?_eq_getElem?] at this ⊢
      rw [List.getElem?_append_right (by rw [texel_length]; omega)]
      rw [texel_length]
      have e : 4 * (j + 1) + k - 4 = 4 * j + k := by omega
      rw [e, this]
      simp

/-- With rows without padding, byte `k` of the texture pixel at (`row`, `col`),
at offset `row * pitch + 4 * col + k` of the block, is byte `k` of the texel of
the atlas byte at `row * width + col`, and that index is inside the atlas. -/
theorem resetTexture_unpadded_pixel (atlas : vtxt_bitmap) (c : Int) (junk : Nat)
    (hlen : atlas.pixels.length = atlas.width * atlas.height) (row col k : Nat)
    (hrow : row < atlas.height) (hcol : col < atlas.width) (hk : k < 4) :
    ∃ bytes v, SDL_VTXT_ResetTexture_bytes atlas c (4 * atlas.width) junk = some bytes ∧
      atlas.pixels.get? (row * atlas.width + col) = some v ∧
      bytes.get? (row * (4 * atlas.width) + 4 * col + k) = (texel c v).get? k ∧
      row * atlas.width + col < atlas.width * atlas.height := by
  have hidx : row * atlas.width + col < atlas.width * atlas.height := by
    have h1 : (row + 1) * atlas.width ≤ atlas.height * atlas.width :=
      Nat.mul_le_mul_right _ hrow
    have h2 : (row + 1) * atlas.width = row * atlas.width + atlas.width := by ring
    have h3 : atlas.height * atlas.width = atlas.width * atlas.height := Nat.mul_comm _ _
    omega
  have hin : row * atlas.width + col < atlas.pixels.length := by rw [hlen]; exact hidx
  refine ⟨texels c atlas.pixels, atlas.pixels.get ⟨_, hin⟩,
    resetTexture_unpadded atlas c junk hlen, List.get?_eq_get hin, ?_, hidx⟩
  have hoff : row * (4 * atlas.width) + 4 * col + k = 4 * (row * atlas.width + col) + k := by
    ring
  rw [hoff, texels_get c atlas.pixels _ k hin hk, List.get?_eq_get hin]
  rfl

/-! ### Construction lemmas -/

theorem init_null_no_file (env : InitEnv) (text_size : Int) (h : env.file = none) :
    SDL_VTXT_Init env text_size = some none := by
  simp [SDL_VTXT_Init, h]

theorem init_null_short_read (env : InitEnv) (text_size : Int) (rw : SDL_RWops)
    (h : env.file = some rw) (hshort : SDL_VTXT_Init_read rw.size rw.reads 0 ≠ rw.size) :
    SDL_VTXT_Init env text_size = some none := by
  simp [SDL_VTXT_Init, h, hshort]

theorem resetTexture_frame (env : TextureEnv) (vfont r : SDL_VTXT) (c res : Int)
    (h : SDL_VTXT_ResetTexture env vfont c = some (r, res)) :
    r.text_size = vfont.text_size ∧ r.cursor_x = vfont.cursor_x ∧ r.cursor_y = vfont.cursor_y ∧
      r.text_color = vfont.text_color ∧ r.commands = vfont.commands ∧
      r.color_buffer = vfont.color_buffer ∧ r.color_array_count = vfont.color_array_count ∧
      res = 0 := by
  simp only [SDL_VTXT_ResetTexture] at h
  split at h
  · exact absurd h (by simp)
  · simp only [Option.some.injEq, Prod.mk.injEq] at h
    obtain ⟨hr, hres⟩ := h
    subst hr
    exact ⟨rfl, rfl, rfl, rfl, rfl, rfl, rfl, hres.symm⟩

/-- Every object `SDL_VTXT_Init` returns has the given text size, the white tint,
an empty queue, no colour buffer and a count of 0; its cursor is whatever the
allocated block held. -/
theorem init_fields (env : InitEnv) (text_size : Int) (ret : SDL_VTXT)
    (h : SDL_VTXT_Init env text_size = some (some ret)) :
    ret.text_size = text_size ∧ ret.text_color = { r := 255, g := 255, b := 255, a := 255 } ∧
      ret.commands = [] ∧ ret.color_buffer = none ∧ ret.color_array_count = 0 ∧
      ret.cursor_x = env.uninit.cursor_x ∧ ret.cursor_y = env.uninit.cursor_y := by
  simp only [SDL_VTXT_Init] at h
  split at h
  · exact absurd h (by simp)
  · split at h
    · exact absurd h (by simp)
    · split at h
      · exact absurd h (by simp)
      · rename_i r hr
        simp only [Option.some.injEq] at h
        subst h
        obtain ⟨h1, h2, h3, h4, h5, h6, h7, _⟩ := resetTexture_frame _ _ r.1 0 r.2 hr
        exact ⟨h1, h4, h5, h6, h7, h2, h3⟩

/-- The colour-buffer invariant holds for every object `SDL_VTXT_Init` returns. -/
theorem init_holds (env : InitEnv) (text_size : Int) (ret : SDL_VTXT)
    (h : SDL_VTXT_Init env text_size = some (some ret)) : ColorBufferHolds ret := by
  obtain ⟨_, _, _, hbuf, hcnt, _, _⟩ := init_fields env text_size ret h
  simp [ColorBufferHolds, hbuf, hcnt, elems]

/-! ### Evaluations and claims -/

/-- C2 (failing input): the object `vfCleared` is what rendering one glyph and then
clearing the queue leaves; in a render call on it the harvested vertex count is 0,
`SDL_realloc` is called and returns `NULL`, the resize stores `NULL` in
`color_buffer` while the count stays 4, the fill then stores through `NULL`, and
the call is undefined before any draw call or `vtxt_clear_buffer` is made. -/
theorem C2_render_stops_at_null_fill :
    (SDL_VTXT_Render quadShaper envOk vfGlyph (0, 0, 0)).map (fun r => (r.vfont, r.shaper)) =
        some (vfDrawn, (124, 200, 0)) ∧
      (SDL_VTXT_Clear vfDrawn).1 = vfCleared ∧
      harvested quadShaper vfCleared (124, 200, 0) =
        { vertex_count := 0, indices_array_count := 0 } ∧
      SDL_VTXT_ResizeColorBuffer envReallocNull.alloc vfCleared 0 =
        ({ vfCleared with color_buffer := none }, -1) ∧
      SDL_VTXT_FillColorBuffer { vfCleared with color_buffer := none } = none ∧
      SDL_VTXT_Render quadShaper envReallocNull vfCleared (124, 200, 0) = none := by
  refine ⟨by decide, by decide, by decide, by decide, by decide, rfl⟩

/-- C3 (failing input): on `vfCleared`, whose colour buffer holds the 4 colours of
the last frame while the queue now yields no vertex, the shaper starts with an
empty accumulator, and the first of two consecutive render calls is undefined
when `SDL_realloc` returns `NULL`: the pair of calls makes no draw call. -/
theorem C3_first_render_undefined :
    (elems vfCleared.color_buffer).length = vfCleared.color_array_count ∧
      (harvested quadShaper vfCleared (124, 200, 0)).vertex_count = 0 ∧
      ((SDL_VTXT_Render quadShaper envReallocNull vfCleared (124, 200, 0)).bind
          (fun r1 => SDL_VTXT_Render quadShaper envReallocNull r1.vfont r1.shaper)).isNone =
        true := by
  refine ⟨by decide, by decide, by decide⟩

/-- C4 (failing input): `SDL_VTXT_Clear` on `vfDrawn` returns 0 and empties the
queue, giving `vfCleared`; the render call made directly after it replays no
command and harvests 0 vertices, and when `SDL_realloc` (asked for 0 bytes)
returns `NULL` it is undefined at the fill and makes no draw call. -/
theorem C4_render_after_clear_undefined :
    SDL_VTXT_Clear vfDrawn = (vfCleared, 0) ∧
      (SDL_VTXT_Render_commands quadShaper vfCleared vfCleared.commands
          (quadShaper.vtxt_move_cursor vfCleared.cursor_x vfCleared.cursor_y (124, 200, 0))).2 =
        [] ∧
      (harvested quadShaper vfCleared (124, 200, 0)).vertex_count = 0 ∧
      (SDL_VTXT_Render quadShaper envReallocNull vfCleared (124, 200, 0)).isNone = true := by
  refine ⟨by decide, by decide, by decide, by decide⟩

/-- C8 (failing input): when `SDL_realloc` returns `NULL` in
`SDL_VTXT_ResizeColorBuffer(vfDrawn, 8)` the function returns -1 with
`color_buffer` set to `NULL` (it no longer refers to the previous block of 4
colours) and `color_array_count` still 4, and the fill that `SDL_VTXT_Render`
runs next stores through `NULL`. -/
theorem C8_failed_resize_drops_buffer :
    SDL_VTXT_ResizeColorBuffer envReallocNull.alloc vfDrawn 8 =
        ({ vfDrawn with color_buffer := none }, -1) ∧
      vfDrawn.color_buffer = some [white, white, white, white] ∧
      (SDL_VTXT_ResizeColorBuffer envReallocNull.alloc vfDrawn 8).1.color_buffer = none ∧
      (SDL_VTXT_ResizeColorBuffer envReallocNull.alloc vfDrawn 8).1.color_array_count = 4 ∧
      SDL_VTXT_FillColorBuffer (SDL_VTXT_ResizeColorBuffer envReallocNull.alloc vfDrawn 8).1 =
        none := by
  refine ⟨by decide, by decide, by decide, by decide, by decide⟩

/-- C6 (failing input): for the atlas `atlas2` (1 pixel wide, 2 high) and a row
pitch of 8 bytes, the inner loop of `SDL_VTXT_ResetTexture` writes two pixels in
row 0, from `pixels[0]` and `pixels[1]`, and in row 1 reads `pixels[2]`, outside
the 2-byte atlas: the function is undefined.  With a pitch of 4 bytes the two
pixels are written as (V, 0xFF, 0xFF, 0xFF). -/
theorem C6_padded_pitch_reads_past_atlas :
    4 * atlas2.width ≤ envPitch8.pitch ∧
      atlas2.pixels.length = atlas2.width * atlas2.height ∧
      SDL_VTXT_ResetTexture_row atlas2.pixels 0 8 8 0
          { alpha_idx := 0, rgba := 0, pixels := some (List.replicate 16 0) } =
        some { alpha_idx := 2, rgba := 8,
               pixels := some [10, 255, 255, 255, 20, 255, 255, 255, 0, 0, 0, 0, 0, 0, 0, 0] } ∧
      atlas2.pixels.get? 2 = none ∧
      SDL_VTXT_ResetTexture_pixel atlas2.pixels 0
          { alpha_idx := 2, rgba := 8,
            pixels := some [10, 255, 255, 255, 20, 255, 255, 255, 0, 0, 0, 0, 0, 0, 0, 0] } =
        none ∧
      SDL_VTXT_ResetTexture_bytes atlas2 0 8 0 = none ∧
      SDL_VTXT_ResetTexture envPitch8 vfAtlas2 0 = none ∧
      SDL_VTXT_ResetTexture_bytes atlas2 0 4 0 =
        some [10, 255, 255, 255, 20, 255, 255, 255] := by
  refine ⟨by decide, by decide, by decide, by decide, by decide, by decide, by decide,
    by decide⟩

/-- C9 (failing input): `SDL_VTXT_Init` with a readable font returns an object
whose `cursor_x` and `cursor_y` are what the allocated block held (7 and -3
here), not (0, 0); the text size, tint, queue and colour buffer are as claimed. -/
theorem C9_init_leaves_cursor_unset :
    SDL_VTXT_Init (envInit 0 true) 24 =
      some (some
        { text_size := 24, cursor_x := 7, cursor_y := -3,
          text_color := { r := 255, g := 255, b := 255, a := 255 },
          font_handle := { font_atlas := atlas2 },
          pixel_format := 373694468,
          font_tex := some { format := 373694468, w := 1, h := 2,
                             data := [10, 255, 255, 255, 20, 255, 255, 255], blend := true },
          color_buffer := none, color_array_count := 0, commands := [] }) := by
  decide

/-- C10 (failing input): when `SDL_CreateTexture` returns `NULL`, and whatever
value `vtxt_init_font` returns, `SDL_VTXT_Init` with a readable font returns an
object (with `font_tex` `NULL`), not `NULL`. -/
theorem C10_init_returns_object_without_texture (code : Int) :
    SDL_VTXT_Init (envInit code false) 24 =
      some (some
        { text_size := 24, cursor_x := 7, cursor_y := -3,
          text_color := { r := 255, g := 255, b := 255, a := 255 },
          font_handle := { font_atlas := atlas2 },
          pixel_format := 373694468, font_tex := none,
          color_buffer := none, color_array_count := 0, commands := [] }) := by
  rfl

/-- C5 (counterexample): on `vfGlyph` (count 0, no buffer) the harvested vertex
count is 4; when `SDL_realloc` returns `NULL` the resize returns -1 and leaves
the count at 0, the fill has nothing to store, and the render call completes and
returns 0 with a colour buffer of 0 elements, not 4. -/
theorem C5_count_stays_when_realloc_null :
    (harvested quadShaper vfGlyph (0, 0, 0)).vertex_count = 4 ∧
      (SDL_VTXT_FillColorBuffer (SDL_VTXT_ResizeColorBuffer envReallocNull.alloc vfGlyph 4).1).map
          (fun r => (r.1.color_array_count, r.1.color_buffer)) = some (0, none) ∧
      (SDL_VTXT_Render quadShaper envReallocNull vfGlyph (0, 0, 0)).map
          (fun r => (r.ret, r.vfont.color_array_count, r.vfont.color_buffer)) =
        some (0, 0, none) := by
  refine ⟨by decide, by decide, by decide⟩

/-- C5 (amended): for an object whose colour buffer holds `color_array_count`
elements and every requested size `size`, if `size` equals the current count or
`SDL_realloc` returns a block, then after `SDL_VTXT_ResizeColorBuffer` and
`SDL_VTXT_FillColorBuffer` the buffer holds exactly `size` elements, each equal
to the tint, and `color_array_count = size`; and a render call in which the
harvested vertex count equals the current count or `SDL_realloc` returns a block
completes with the colour buffer's element count and `color_array_count` equal
to the harvested vertex count, every element the tint. -/
theorem C5_resize_fill_count {σ : Type} (sh : Shaper σ) (env : RenderEnv) (vfont : SDL_VTXT)
    (s : σ) (size : Nat) (hwf : ColorBufferHolds vfont)
    (hsize : size = vfont.color_array_count ∨ env.alloc.realloc_ok = true)
    (hrender : (harvested sh vfont s).vertex_count = vfont.color_array_count ∨
      env.alloc.realloc_ok = true) :
    (∃ v, SDL_VTXT_FillColorBuffer (SDL_VTXT_ResizeColorBuffer env.alloc vfont size).1 =
          some (v, 0) ∧
        v.color_array_count = size ∧
        elems v.color_buffer = List.replicate size vfont.text_color ∧
        v.text_color = vfont.text_color) ∧
      ∃ r, SDL_VTXT_Render sh env vfont s = some r ∧
        r.vfont.color_array_count = (harvested sh vfont s).vertex_count ∧
        elems r.vfont.color_buffer =
          List.replicate (harvested sh vfont s).vertex_count vfont.text_color ∧
        r.vfont.text_color = vfont.text_color := by
  constructor
  · have hsafe : size = vfont.color_array_count ∨ env.alloc.realloc_ok = true ∨
        vfont.color_array_count = 0 := by
      rcases hsize with h | h
      · exact Or.inl h
      · exact Or.inr (Or.inl h)
    obtain ⟨buf, cnt, hfill, helems, hcnt⟩ := resize_fill env.alloc vfont size hwf hsafe
    have hc : cnt = size := by
      rcases hcnt with ⟨h, _⟩ | ⟨_, _, hno, _⟩
      · exact h
      · rcases hsize with h | h
        · rw [resize_same env.alloc vfont size h.symm] at hfill
          obtain ⟨b2, hf2, _, _⟩ := fill_holds vfont hwf
          rw [hf2] at hfill
          have := congrArg (fun o => o.map (fun q => q.1.color_array_count)) hfill
          simp at this
          omega
        · rw [hno] at h; exact absurd h (by decide)
    subst hc
    exact ⟨_, hfill, rfl, helems, rfl⟩
  · have hsafe : ReallocSafe sh env vfont s := by
      unfold ReallocSafe
      rcases hrender with h | h
      · exact Or.inl h
      · exact Or.inr (Or.inl h)
    obtain ⟨buf, cnt, hr, helems, hcnt⟩ := render_safe sh env vfont s hwf hsafe
    have hc : cnt = (harvested sh vfont s).vertex_count := by
      rcases hcnt with ⟨h, _⟩ | ⟨h0, _, hno, hne⟩
      · exact h
      · rcases hrender with h | h
        · have hz : vfont.color_array_count = 0 ∨ vfont.color_array_count ≠ 0 := by omega
          rcases hz with hz | hz
          · omega
          · exfalso
            have hsz : vfont.color_array_count = (harvested sh vfont s).vertex_count := h.symm
            have hfill := resize_same env.alloc vfont _ hsz
            obtain ⟨b2, hf2, _, _⟩ := fill_holds vfont hwf
            have hr2 : SDL_VTXT_Render sh env vfont s =
                some
                  { vfont := { vfont with color_buffer := b2 }
                    shaper := sh.vtxt_clear_buffer (replayed sh vfont s)
                    calls :=
                      Call.move_cursor vfont.cursor_x vfont.cursor_y ::
                        (SDL_VTXT_Render_commands sh vfont vfont.commands
                          (sh.vtxt_move_cursor vfont.cursor_x vfont.cursor_y s)).2 ++
                        [Call.grab_buffer,
                          Call.render_geometry vfont.font_tex b2
                            (harvested sh vfont s).vertex_count
                            (harvested sh vfont s).indices_array_count,
                          Call.clear_buffer]
                    ret := 0 } := by
              unfold harvested replayed at hfill
              simp only [SDL_VTXT_Render, hfill, hf2]
              rfl
            rw [hr2] at hr
            have := congrArg (fun o => o.map (fun q => q.vfont.color_array_count)) hr
            simp at this
            omega
        · rw [hno] at h; exact absurd h (by decide)
    subst hc
    exact ⟨_, hr, rfl, helems, rfl⟩

/-- C5 (witness): on `vfDrawn` with a working allocator, for the size 8. -/
theorem C5_resize_fill_count_witness :
    ColorBufferHolds vfDrawn ∧
      ((8 : Nat) = vfDrawn.color_array_count ∨ envOk.alloc.realloc_ok = true) ∧
      ((harvested quadShaper vfDrawn (0, 0, 0)).vertex_count = vfDrawn.color_array_count ∨
        envOk.alloc.realloc_ok = true) ∧
      ((∃ v, SDL_VTXT_FillColorBuffer (SDL_VTXT_ResizeColorBuffer envOk.alloc vfDrawn 8).1 =
            some (v, 0) ∧
          v.color_array_count = 8 ∧
          elems v.color_buffer = List.replicate 8 vfDrawn.text_color ∧
          v.text_color = vfDrawn.text_color) ∧
        ∃ r, SDL_VTXT_Render quadShaper envOk vfDrawn (0, 0, 0) = some r ∧
          r.vfont.color_array_count = (harvested quadShaper vfDrawn (0, 0, 0)).vertex_count ∧
          elems r.vfont.color_buffer =
            List.replicate (harvested quadShaper vfDrawn (0, 0, 0)).vertex_count
              vfDrawn.text_color ∧
          r.vfont.text_color = vfDrawn.text_color) :=
  ⟨rfl, Or.inr rfl, Or.inr rfl,
    C5_resize_fill_count quadShaper envOk vfDrawn (0, 0, 0) 8 rfl (Or.inr rfl) (Or.inr rfl)⟩

/-- Every render call that returns, returns 0, whatever
`SDL_VTXT_ResizeColorBuffer` and `SDL_RenderGeometryRaw` returned; and the call
does return whenever the object's colour buffer holds `color_array_count`
elements and the harvested vertex count equals that count, or `SDL_realloc`
returns a block, or the count is 0. -/
theorem render_returns_zero {σ : Type} (sh : Shaper σ) (env : RenderEnv)
    (vfont : SDL_VTXT) (s : σ) (hwf : ColorBufferHolds vfont)
    (hsafe : ReallocSafe sh env vfont s) :
    (∃ r, SDL_VTXT_Render sh env vfont s = some r ∧ r.ret = 0) ∧
      ∀ (env2 : RenderEnv) (v : SDL_VTXT) (t : σ) (r : RenderResult σ),
        SDL_VTXT_Render sh env2 v t = some r → r.ret = 0 := by
  constructor
  · obtain ⟨buf, cnt, hr, _, _⟩ := render_safe sh env vfont s hwf hsafe
    exact ⟨_, hr, rfl⟩
  · intro env2 v t r hr
    simp only [SDL_VTXT_Render] at hr
    split at hr
    · exact absurd hr (by simp)
    · simp only [Option.some.injEq] at hr
      rw [← hr]

/-- C7 (failing input): on `vfGlyph` (count 0, no buffer, 4 vertices harvested)
with `SDL_realloc` returning `NULL`, `SDL_VTXT_ResizeColorBuffer` returns -1 and
the render call still returns 0; and with the renderer rejecting the draw call
(`SDL_RenderGeometryRaw` returns -1) the render call returns 0 as well. -/
theorem C7_render_returns_zero_on_failure :
    (harvested quadShaper vfGlyph (0, 0, 0)).vertex_count = 4 ∧
      (SDL_VTXT_ResizeColorBuffer envReallocNull.alloc vfGlyph
          (harvested quadShaper vfGlyph (0, 0, 0)).vertex_count).2 = -1 ∧
      (SDL_VTXT_Render quadShaper envReallocNull vfGlyph (0, 0, 0)).map (fun r => r.ret) =
        some 0 ∧
      envDrawRejected.draw_result ≠ 0 ∧
      (SDL_VTXT_Render quadShaper envDrawRejected vfGlyph (0, 0, 0)).map (fun r => r.ret) =
        some 0 := by
  refine ⟨by decide, by decide, by decide, by decide, by decide⟩

end SDLVTXT
